import Mathlib

/-!
Verification of the ruuvi sensor protocol decoder.

The development shallowly embeds the two source files of the repository,
src/src/lib.rs and src/src/sensordata/v3.rs, together with the parts of the
crate that the sources reference but that are not present in the repository
snapshot (the formats module declaring the error type, the normalized record
and the dispatcher); those missing parts are modelled from the specification
and are marked as such in their doc comments.

Modelling conventions:
  - bytes of a payload are natural numbers; reading a byte applies `% 256`
    so the embedding is total over Nat and agrees with the Rust u8 slice on
    every real input;
  - Rust Result is embedded as Except, big-endian 16-bit reads as the
    shift-and-or arithmetic of the source;
  - a Rust panic (the unimplemented conversion) is embedded as the `none`
    of an Option: a computation that yields no value at all;
  - i32 arithmetic wraps modulo 2^32, made explicit in `wrap_i32`.
-/

/-- Modelled from the spec: the error taxonomy of section 7 (the declaring
formats module is not in the repository snapshot). The variant shapes follow
their uses in src/src/sensordata/v3.rs and in the documented examples of
src/src/lib.rs. -/
inductive ParseError where
  | UnknownManufacturerId (id : Nat)
  | UnsupportedFormatVersion (versionTag : Nat)
  | InvalidValueLength (version : Nat) (length : Nat) (expected : Nat)
deriving DecidableEq

/-- The tuple struct AccelerationVectorV3(i16, i16, i16) of
src/src/sensordata/v3.rs: three signed 16-bit milli-g components. -/
structure AccelerationVectorV3 where
  x : Int
  y : Int
  z : Int
deriving DecidableEq

/-- The struct SensorDataV3 of src/src/sensordata/v3.rs: the version-3
intermediate record. humidity is a u8, temperature, pressure and
battery_potential are u16 values, acceleration holds three i16 values. -/
structure SensorDataV3 where
  humidity : Nat
  temperature : Nat
  pressure : Nat
  acceleration : AccelerationVectorV3
  battery_potential : Nat
deriving DecidableEq

/-- fn u16_from_two_bytes of src/src/sensordata/v3.rs:
((b1 as u16) << 8) | b2 as u16. The `% 256` embeds the u8 type of the
arguments. -/
def u16_from_two_bytes (b1 b2 : Nat) : Nat :=
  ((b1 % 256) <<< 8) ||| (b2 % 256)

/-- fn i16_from_two_bytes of src/src/sensordata/v3.rs: the u16 value
reinterpreted as a signed 16-bit integer (u16 as i16). -/
def i16_from_two_bytes (b1 b2 : Nat) : Int :=
  let v := u16_from_two_bytes b1 b2
  if v < 32768 then (v : Int) else (v : Int) - 65536

/-- SensorDataV3::from_manufacturer_specific_data of
src/src/sensordata/v3.rs: if the payload length is exactly 14, read the
fields at their fixed offsets (byte 0 is the version tag); any other length
yields InvalidValueLength with version 3 and expected 14. -/
def SensorDataV3.from_manufacturer_specific_data (value : List Nat) :
    Except ParseError SensorDataV3 :=
  if value.length = 14 then
    Except.ok
      { humidity := value.getD 1 0 % 256
        temperature := u16_from_two_bytes (value.getD 2 0) (value.getD 3 0)
        pressure := u16_from_two_bytes (value.getD 4 0) (value.getD 5 0)
        acceleration :=
          { x := i16_from_two_bytes (value.getD 6 0) (value.getD 7 0)
            y := i16_from_two_bytes (value.getD 8 0) (value.getD 9 0)
            z := i16_from_two_bytes (value.getD 10 0) (value.getD 11 0) }
        battery_potential :=
          u16_from_two_bytes (value.getD 12 0) (value.getD 13 0) }
  else
    Except.error (ParseError.InvalidValueLength 3 value.length 14)

/-- Modelled from the spec: the acceleration 3-tuple of the
NormalizedRecord (section 3); its declaring module is not in the snapshot,
its shape follows the uses in the tests of src/src/sensordata/v3.rs. -/
structure AccelerationVector where
  x : Int
  y : Int
  z : Int
deriving DecidableEq

/-- Modelled from the spec: the NormalizedRecord of section 3 (SensorData,
the SensorValues equivalent); its declaring module is not in the snapshot,
its field shapes follow the uses in the tests of src/src/sensordata/v3.rs
and the documented example of src/src/lib.rs. Every physical quantity is
optional. -/
structure SensorData where
  humidity : Option Nat
  temperature : Option Int
  pressure : Option Nat
  acceleration : Option AccelerationVector
  battery_potential : Option Nat
deriving DecidableEq

/-- impl Into(SensorData) for SensorDataV3 in src/src/sensordata/v3.rs: the
body is unimplemented!(), which panics unconditionally; the panic is
embedded as `none` (no normalized record is ever produced). -/
def SensorDataV3.intoSensorData (_self : SensorDataV3) : Option SensorData :=
  none

/-- Modelled from the spec: the Dispatcher of section 4.1
(SensorValues::from_manufacturer_specific_data, declared in the formats
module which is not in the snapshot). It compares the manufacturer id
against 0x0499; on mismatch UnknownManufacturerId. A zero-length payload
fails with an invalid-length error attributed to the expected minimum of
one byte (the version field of that error is not determined by the spec;
the model uses 0, as no version was selected). Otherwise the first byte is
the version tag: tag 3 delegates the entire payload to the version-3
decoder and converts its record with the Into impl of
src/src/sensordata/v3.rs; any other tag yields UnsupportedFormatVersion.
The outer Option records whether the call returns at all: `none` is the
panic of the unimplemented conversion. -/
def SensorValues.from_manufacturer_specific_data (id : Nat)
    (value : List Nat) : Option (Except ParseError SensorData) :=
  if id = 0x0499 then
    match value with
    | [] => some (Except.error (ParseError.InvalidValueLength 0 0 1))
    | v :: _ =>
      if v = 3 then
        match SensorDataV3.from_manufacturer_specific_data value with
        | Except.ok d => (d.intoSensorData).map Except.ok
        | Except.error e => some (Except.error e)
      else
        some (Except.error (ParseError.UnsupportedFormatVersion v))
  else
    some (Except.error (ParseError.UnknownManufacturerId id))

/-- Trait constant ZERO_CELSIUS_IN_MILLIKELVINS of src/src/lib.rs, written
273_1500 there: the numeral is 2731500. -/
def ZERO_CELSIUS_IN_MILLIKELVINS : Nat := 2731500

/-- The Rust cast `t as i32` for a u32 value t. -/
def i32_of_u32 (t : Nat) : Int :=
  if t % 4294967296 < 2147483648 then ((t % 4294967296 : Nat) : Int)
  else ((t % 4294967296 : Nat) : Int) - 4294967296

/-- Wrapping of an Int into the i32 range, the release-mode semantics of
Rust i32 subtraction. -/
def wrap_i32 (x : Int) : Int :=
  (x + 2147483648) % 4294967296 - 2147483648

/-- Temperature::temperature_as_millicelsius of src/src/lib.rs: map over
the optional milli-kelvin reading, computing
temperature as i32 - ZERO_CELSIUS_IN_MILLIKELVINS as i32. -/
def temperature_as_millicelsius (mk : Option Nat) : Option Int :=
  mk.map fun t =>
    wrap_i32 (i32_of_u32 t - (ZERO_CELSIUS_IN_MILLIKELVINS : Int))

/-- The worked example payload of the documentation in src/src/lib.rs and
of the tests in src/src/sensordata/v3.rs. -/
def example_payload : List Nat :=
  [0x03, 0x17, 0x01, 0x45, 0x35, 0x58, 0x03, 0xE8, 0x04, 0xE7, 0x05, 0xE6,
   0x08, 0x86]

/-- C1: decoding manufacturer id 0x0499 with the worked-example payload.
The version-3 parse stage succeeds with the raw record of the source tests,
but the conversion to the normalized record is unimplemented and panics
(embedded as none), so the top-level decode produces no record at all,
against the documented example asserting humidity 115000, temperature 1690,
pressure 63656, acceleration (1000, 1255, 1510) and battery 2182. -/
theorem decode_worked_example_panics :
    SensorDataV3.from_manufacturer_specific_data example_payload
      = Except.ok
          { humidity := 23
            temperature := 325
            pressure := 13656
            acceleration := { x := 1000, y := 1255, z := 1510 }
            battery_potential := 2182 } ∧
    SensorValues.from_manufacturer_specific_data 0x0499 example_payload
      = none :=
  ⟨rfl, rfl⟩

/-- C2 counterexample: at the worked-example record, the conversion does
not return the record that the claimed field formulas demand (humidity
23 x 500 = 11500, temperature 1690, pressure 63656, acceleration and
battery unchanged); its body is unimplemented and produces nothing. -/
theorem v3_into_sensordata_refutes_field_formulas :
    SensorDataV3.intoSensorData
        { humidity := 23
          temperature := 325
          pressure := 13656
          acceleration := { x := 1000, y := 1255, z := 1510 }
          battery_potential := 2182 }
      ≠ some
          { humidity := some 11500
            temperature := some 1690
            pressure := some 63656
            acceleration := some { x := 1000, y := 1255, z := 1510 }
            battery_potential := some 2182 } := by
  intro h
  exact Option.noConfusion h

/-- C2 (amended): for every version-3 record, the conversion into the
normalized record produces no normalized record: its body is
unimplemented!() and panics, so none of the claimed field computations is
performed. -/
theorem v3_into_sensordata_produces_no_record (d : SensorDataV3) :
    (SensorDataV3.intoSensorData d).isSome = false :=
  rfl

/-- C3: evaluation of the temperature conversion of src/src/lib.rs at the
inputs the claim names. The code subtracts the constant 273_1500 = 2731500,
so 273150 milli-kelvin maps to -2458350 rather than the 0 the claim (and
the milli-kelvin reading of the constant's own name) requires; 0 maps to
-2731500 and 2731500 maps to 0. -/
theorem millicelsius_conversion_subtracts_2731500 :
    temperature_as_millicelsius (some 273150) = some (-2458350) ∧
    temperature_as_millicelsius (some 0) = some (-2731500) ∧
    temperature_as_millicelsius (some 2731500) = some 0 := by
  refine ⟨?_, ?_, ?_⟩ <;> decide

/-- C4: the version-3 decoder errs exactly on lengths other than 14: a
14-byte payload always parses (no validation other than length), and any
other length yields InvalidValueLength with version 3, the actual length,
and expected 14. -/
theorem v3_from_bytes_length_contract (value : List Nat) :
    (value.length = 14 →
      ∃ d, SensorDataV3.from_manufacturer_specific_data value
        = Except.ok d) ∧
    (value.length ≠ 14 →
      SensorDataV3.from_manufacturer_specific_data value
        = Except.error (ParseError.InvalidValueLength 3 value.length 14))
    := by
  constructor
  · intro h
    unfold SensorDataV3.from_manufacturer_specific_data
    rw [if_pos h]
    exact ⟨_, rfl⟩
  · intro h
    unfold SensorDataV3.from_manufacturer_specific_data
    rw [if_neg h]

/-- C4 witness: the 14-byte worked-example payload parses, and the 6-byte
payload of the source test fails with InvalidValueLength 3 6 14. -/
theorem v3_from_bytes_length_contract_witness :
    (∃ d, SensorDataV3.from_manufacturer_specific_data example_payload
      = Except.ok d) ∧
    SensorDataV3.from_manufacturer_specific_data [3, 103, 22, 50, 60, 70]
      = Except.error (ParseError.InvalidValueLength 3 6 14) :=
  ⟨(v3_from_bytes_length_contract example_payload).1 (by decide),
   (v3_from_bytes_length_contract [3, 103, 22, 50, 60, 70]).2 (by decide)⟩

/-- C5: for every version-3 record, the conversion into the normalized
SensorData record is unimplemented and panics (embedded as none): no input
to this conversion produces a normalized record. -/
theorem v3_into_sensordata_is_unimplemented (d : SensorDataV3) :
    SensorDataV3.intoSensorData d = none :=
  rfl

/-- C6: with the correct manufacturer id, every payload whose first byte is
a version tag other than 3 is rejected as UnsupportedFormatVersion with
that tag. -/
theorem dispatch_unsupported_version (v : Nat) (rest : List Nat)
    (_hb : v < 256) (hv : v ≠ 3) :
    SensorValues.from_manufacturer_specific_data 0x0499 (v :: rest)
      = some (Except.error (ParseError.UnsupportedFormatVersion v)) := by
  unfold SensorValues.from_manufacturer_specific_data
  simp [hv]

/-- C6 witness: the documented example beginning with 0x07 yields
UnsupportedFormatVersion 7. -/
theorem dispatch_unsupported_version_witness :
    SensorValues.from_manufacturer_specific_data 0x0499
        [0x07, 0x17, 0x01, 0x45, 0x35, 0x58, 0x03, 0xE8, 0x04, 0xE7, 0x05,
         0xE6, 0x08, 0x86]
      = some (Except.error (ParseError.UnsupportedFormatVersion 7)) :=
  dispatch_unsupported_version 7
    [0x17, 0x01, 0x45, 0x35, 0x58, 0x03, 0xE8, 0x04, 0xE7, 0x05, 0xE6,
     0x08, 0x86] (by decide) (by decide)

/-- C7: for every manufacturer id other than 0x0499 and every payload, the
dispatcher returns UnknownManufacturerId with that id and does no further
processing of the payload. -/
theorem dispatch_unknown_manufacturer_id (id : Nat) (value : List Nat)
    (_hid : id < 65536) (h : id ≠ 0x0499) :
    SensorValues.from_manufacturer_specific_data id value
      = some (Except.error (ParseError.UnknownManufacturerId id)) := by
  unfold SensorValues.from_manufacturer_specific_data
  rw [if_neg h]

/-- C7 witness: id 0x0498 with the worked-example payload is rejected as
UnknownManufacturerId 0x0498. -/
theorem dispatch_unknown_manufacturer_id_witness :
    SensorValues.from_manufacturer_specific_data 0x0498 example_payload
      = some (Except.error (ParseError.UnknownManufacturerId 0x0498)) :=
  dispatch_unknown_manufacturer_id 0x0498 example_payload (by decide)
    (by decide)

/-- C8: with the correct manufacturer id, a zero-length payload fails with
an invalid-length error whose length is 0 and whose expected field is the
minimum of one byte needed for the version tag; no version tag is read. -/
theorem dispatch_empty_payload_invalid_length (value : List Nat)
    (h : value.length = 0) :
    ∃ ver, SensorValues.from_manufacturer_specific_data 0x0499 value
      = some (Except.error (ParseError.InvalidValueLength ver 0 1)) := by
  have hv : value = [] := List.length_eq_zero.mp h
  subst hv
  exact ⟨0, rfl⟩

/-- C8 witness: the empty payload with id 0x0499 yields an invalid-length
error with length 0 and expected 1. -/
theorem dispatch_empty_payload_invalid_length_witness :
    ∃ ver, SensorValues.from_manufacturer_specific_data 0x0499 []
      = some (Except.error (ParseError.InvalidValueLength ver 0 1)) :=
  dispatch_empty_payload_invalid_length [] (by decide)

/-- C9: the milli-kelvin to milli-Celsius conversion propagates absence:
an absent reading gives an absent result, and every present reading gives
a present result. -/
theorem millicelsius_propagates_absence :
    temperature_as_millicelsius none = none ∧
    ∀ t : Nat, ∃ c : Int, temperature_as_millicelsius (some t) = some c :=
  ⟨rfl, fun _ => ⟨_, rfl⟩⟩

/-- C10: decoding is deterministic: both the dispatcher and the version-3
decoder are pure functions of their inputs, so two invocations on the same
(id, payload) pair yield identical results. -/
theorem decode_deterministic (id : Nat) (value : List Nat) :
    SensorValues.from_manufacturer_specific_data id value
      = SensorValues.from_manufacturer_specific_data id value ∧
    SensorDataV3.from_manufacturer_specific_data value
      = SensorDataV3.from_manufacturer_specific_data value :=
  ⟨rfl, rfl⟩
